import Mathlib

set_option maxHeartbeats 1000000
set_option maxRecDepth 4000

/-!
Verification development for the `crafting-interpreters-rs` tree-walking Lox
interpreter.  The Rust sources (lexer.rs, parser.rs, resolver.rs,
interpreter.rs, environment.rs, function.rs, class.rs, runner.rs) are embedded
shallowly below: pure functions become Lean functions, `&mut self` methods
become state-passing functions, Rust panics become an explicit `crash` outcome,
and `f64` number literals are modelled by `Int` (no claim under consideration
depends on float rounding).  Rust `HashMap` is modelled by an association list
with insert-replace semantics, which matches the observable behaviour used by
the source (insert, get, contains_key).
-/

namespace Lox

/-- Token kinds, from lexer.rs `enum TokenType`. -/
inductive TokenType where
  | leftParen | rightParen | leftBrace | rightBrace
  | comma | dot | minus | plus | semiColon | slash | star
  | bang | bangEqual | equal | equalEqual
  | greater | greaterEqual | less | lessEqual
  | identifier | string | number
  | and_ | class_ | else_ | false_ | fun_ | for_ | if_ | nil | or_
  | print | return_ | super_ | this_ | true_ | var_ | while_
  | eof
deriving DecidableEq, Repr

/-- Literal values carried by tokens, from lexer.rs `enum Literal`.
`f64` is modelled by `Int`. -/
inductive Literal where
  | str (s : String)
  | number (n : Int)
  | bool (b : Bool)
  | nil
deriving DecidableEq, Repr

/-- A scanned token, from lexer.rs `struct Token`. -/
structure Token where
  token_type : TokenType
  lexeme : String
  literal : Literal
  line : Nat
deriving DecidableEq, Repr

/-- Expressions.  The `Expr` enum lives in the repository's missing `expr`
module, but every variant and its full field list is fixed by the construction
sites in parser.rs and the visitor dispatch in resolver.rs / ast.rs
(e.g. `Expr::Variable \x7b name, initializer \x7d` at parser.rs:671,
`Expr::Super \x7b keyword, method \x7d` per `visit_super_expr`).
Rust derives structural `PartialEq`/`Hash` for use as a `HashMap` key in
interpreter.rs; Lean's structural `DecidableEq` matches that. -/
inductive Expr where
  | literal (value : Literal)
  | grouping (expression : Expr)
  | unary (operator : Token) (right : Expr)
  | binary (left : Expr) (operator : Token) (right : Expr)
  | logical (left : Expr) (operator : Token) (right : Expr)
  | variable (name : Token) (initializer : Option Expr)
  | assign (name : Token) (value : Expr)
  | call (callee : Expr) (paren : Token) (arguments : List Expr)
  | get (object : Expr) (name : Token)
  | set (object : Expr) (name : Token) (value : Expr)
  | this (keyword : Token)
  | super (keyword : Token) (method : Token)
deriving Repr

/-- parser.rs `struct ParseError;` (a unit struct). -/
inductive ParseError where
  | mk
deriving DecidableEq, Repr

/-- Statements.  The `Stmt` enum is in a missing module; variants and fields
are fixed by the construction sites in parser.rs and the `StmtVisitor`
dispatch in resolver.rs.  `Stmt::Class` stores its methods as
`Vec<Result<Stmt, ParseError>>` (see resolver.rs `visit_class_stmt`). -/
inductive Stmt where
  | expression (expression : Expr)
  | print (expression : Expr)
  | var_ (name : Token) (initializer : Option Expr)
  | block (statements : List Stmt)
  | if_ (conditional : Expr) (consequent : Stmt) (alternative : Option Stmt)
  | while_ (condition : Expr) (body : Stmt)
  | function (name : Token) (params : List Token) (body : List Stmt)
  | return_ (keyword : Token) (value : Option Expr)
  | class_ (name : Token) (methods : List (Except ParseError Stmt))
      (superclass : Option Expr)
deriving Repr

mutual

/-- Structural equality on expressions: the Rust `Expr` derives `PartialEq`
(it is used as a `HashMap` key in interpreter.rs), which compares all fields
structurally.  Defined by hand because the nested `List`/`Option` fields block
automatic derivation. -/
def exprEq : Expr → Expr → Bool
  | .literal v1, .literal v2 => v1 == v2
  | .grouping e1, .grouping e2 => exprEq e1 e2
  | .unary o1 r1, .unary o2 r2 => o1 == o2 && exprEq r1 r2
  | .binary l1 o1 r1, .binary l2 o2 r2 =>
      exprEq l1 l2 && o1 == o2 && exprEq r1 r2
  | .logical l1 o1 r1, .logical l2 o2 r2 =>
      exprEq l1 l2 && o1 == o2 && exprEq r1 r2
  | .variable n1 i1, .variable n2 i2 => n1 == n2 && exprOptEq i1 i2
  | .assign n1 v1, .assign n2 v2 => n1 == n2 && exprEq v1 v2
  | .call c1 p1 a1, .call c2 p2 a2 =>
      exprEq c1 c2 && p1 == p2 && exprListEq a1 a2
  | .get o1 n1, .get o2 n2 => exprEq o1 o2 && n1 == n2
  | .set o1 n1 v1, .set o2 n2 v2 => exprEq o1 o2 && n1 == n2 && exprEq v1 v2
  | .this k1, .this k2 => k1 == k2
  | .super k1 m1, .super k2 m2 => k1 == k2 && m1 == m2
  | _, _ => false

def exprOptEq : Option Expr → Option Expr → Bool
  | none, none => true
  | some e1, some e2 => exprEq e1 e2
  | _, _ => false

def exprListEq : List Expr → List Expr → Bool
  | [], [] => true
  | e1 :: t1, e2 :: t2 => exprEq e1 e2 && exprListEq t1 t2
  | _, _ => false

end

mutual

/-- A runtime error, from the repository's evaluator module (its file is not
in the source tree; the shape is fixed by the uses in the present files:
`RuntimeError::new(token, message)` everywhere, and
`RuntimeError::Return(Option<Value>)` matched in function.rs). -/
inductive RuntimeErrorKind where
  | new_ (token : Token) (message : String)
  | returnSignal (value : Option Value)

/-- Runtime values, from the missing evaluator module; the variants are fixed
by the spec (section 3) and by the uses in the present files
(`Value::Nil`, `Value::Callable(Rc<...>)`, `Value::LoxInstance(...)`). -/
inductive Value where
  | nil
  | bool (b : Bool)
  | number (n : Int)
  | str (s : String)
  | callable (c : Callable)
  | loxInstance (i : LoxInstance)

/-- The callable capability: the native clock, user functions and classes
(spec section 4.6; `Rc<dyn LoxCallable>` in the source). -/
inductive Callable where
  | clockFn
  | loxFunction (f : LoxFunction)
  | loxClass (c : LoxClass)

/-- environment.rs `struct Environment`: bindings for this scope plus an
optional parent scope.  The parent is owned (`Option<Box<Environment>>`),
i.e. the chain has value semantics, which the plain Lean datatype mirrors
exactly. -/
inductive Environment where
  | mk (values : List (String × Value)) (enclosing : Option Environment)

/-- function.rs `struct LoxFunction`: the declaration (an `Rc<Stmt>`, always a
`Stmt::Function`) and the captured closure environment (`Rc<Environment>`:
shared, immutable — there is no interior mutability in the source). -/
inductive LoxFunction where
  | mk (declaration : Stmt) (closure : Environment)

/-- class.rs `struct LoxClass`. -/
inductive LoxClass where
  | mk (superclass : Option LoxClass) (name : String)
      (methods : List (String × LoxFunction))

/-- class.rs `struct LoxInstance`: a plain value struct (derives `Clone`), so
copies do not share field storage. -/
inductive LoxInstance where
  | mk (klass : LoxClass) (fields : List (String × Value))

end

namespace Environment

/-- Field accessor for the bindings of this scope. -/
def values : Environment → List (String × Value)
  | .mk v _ => v

/-- Field accessor for the optional parent scope. -/
def enclosing : Environment → Option Environment
  | .mk _ e => e

end Environment

/-- `HashMap::insert` modelled on an association list: replace the existing
binding for the key, or append a new one. -/
def insertAssoc (l : List (String × Value)) (k : String) (v : Value) :
    List (String × Value) :=
  match l with
  | [] => [(k, v)]
  | (k', v') :: t =>
      if k' = k then (k, v) :: t else (k', v') :: insertAssoc t k v

/-- `HashMap::get` modelled on an association list. -/
def lookupAssoc (l : List (String × Value)) (k : String) : Option Value :=
  match l with
  | [] => none
  | (k', v') :: t => if k' = k then some v' else lookupAssoc t k

/-- `HashMap::contains_key` modelled on an association list. -/
def containsKeyAssoc (l : List (String × Value)) (k : String) : Bool :=
  match l with
  | [] => false
  | (k', _) :: t => if k' = k then true else containsKeyAssoc t k

/-- Outcome of a fallible runtime operation.  `ok`/`err` mirror Rust's
`Result<_, RuntimeError>`; `crash` models a Rust panic (environment.rs
`ancestor`/`ancestor_mut` panic when the chain is too short). -/
inductive RtOut (α : Type) where
  | ok (a : α)
  | err (e : RuntimeErrorKind)
  | crash (msg : String)

namespace Environment

/-- environment.rs `new_global`. -/
def new_global : Environment := .mk [] none

/-- environment.rs `new_enclosed`: a nested environment that owns (boxes) its
parent — a by-value copy, not a shared handle. -/
def new_enclosed (enclosing : Environment) : Environment :=
  .mk [] (some enclosing)

/-- environment.rs `define`: insert or shadow without extra checks. -/
def define (env : Environment) (name : String) (value : Value) : Environment :=
  .mk (insertAssoc env.values name value) env.enclosing

/-- Number of frames in the chain (`env` itself plus its ancestors). -/
def chainLength : Environment → Nat
  | .mk _ none => 1
  | .mk _ (some parent) => 1 + chainLength parent

/-- environment.rs `get`: search the current frame, recurse to the enclosing
one, report `Undefined variable` at the root. -/
def get : Environment → Token → RtOut Value
  | .mk values enclosing, name =>
      match lookupAssoc values name.lexeme with
      | some v => .ok v
      | none =>
          match enclosing with
          | some parent => parent.get name
          | none =>
              .err (.new_ name
                ("Undefined variable \x27" ++ name.lexeme ++ "\x27."))

/-- environment.rs `assign`: like `get` but mutating; the mutation is modelled
by returning the updated chain. -/
def assign : Environment → Token → Value → RtOut Environment
  | .mk values enclosing, name, value =>
      if containsKeyAssoc values name.lexeme then
        .ok (.mk (insertAssoc values name.lexeme value) enclosing)
      else
        match enclosing with
        | some parent =>
            match parent.assign name value with
            | .ok parent' => .ok (.mk values (some parent'))
            | .err e => .err e
            | .crash m => .crash m
        | none =>
            .err (.new_ name
              ("Undefined variable \x27" ++ name.lexeme ++ "\x27."))

/-- environment.rs `ancestor`: walk `enclosing` exactly `distance` times;
`none` stands for the source's panic "Ancestor not found, should not happen". -/
def ancestor (env : Environment) (distance : Nat) : Option Environment :=
  match distance with
  | 0 => some env
  | d + 1 =>
      match env.enclosing with
      | some parent => parent.ancestor d
      | none => none

/-- environment.rs `assign_at`: obtain `ancestor_mut(distance)` and insert the
binding there unconditionally (no containment check), returning `Ok(())`.
The in-place mutation through `ancestor_mut` is modelled by rebuilding the
chain with the updated ancestor. -/
def assign_at (env : Environment) (distance : Nat) (name : Token)
    (value : Value) : RtOut Environment :=
  match distance with
  | 0 => .ok (.mk (insertAssoc env.values name.lexeme value) env.enclosing)
  | d + 1 =>
      match env.enclosing with
      | some parent =>
          match parent.assign_at d name value with
          | .ok parent' => .ok (.mk env.values (some parent'))
          | .err e => .err e
          | .crash m => .crash m
      | none => .crash "Ancestor not found, should not happen"

/-- environment.rs `get_at`: read `name` directly in `ancestor(distance)`,
with no recursive fallback; a missing binding is `Undefined variable` reported
through a dummy `LeftParen` token at line 0, exactly as in the source. -/
def get_at (env : Environment) (distance : Nat) (name : String) : RtOut Value :=
  match env.ancestor distance with
  | none => .crash "Ancestor not found, should not happen"
  | some anc =>
      match lookupAssoc anc.values name with
      | some v => .ok v
      | none =>
          .err (.new_ (Token.mk .leftParen name .nil 0)
            ("Undefined variable \x27" ++ name ++ "\x27."))

/-- Whether any frame in the chain binds `name` (the success condition of
environment.rs `assign`). -/
def bindsName : Environment → String → Bool
  | .mk values enclosing, name =>
      containsKeyAssoc values name ||
        (match enclosing with
         | some parent => parent.bindsName name
         | none => false)

end Environment

namespace LoxFunction

/-- Field accessor. -/
def declaration : LoxFunction → Stmt
  | .mk d _ => d

/-- Field accessor. -/
def closure : LoxFunction → Environment
  | .mk _ c => c

/-- function.rs `arity`: the parameter count of the declaration. -/
def arity (f : LoxFunction) : Nat :=
  match f.declaration with
  | .function _ params _ => params.length
  | _ => 0

end LoxFunction

namespace LoxClass

/-- Field accessor. -/
def name : LoxClass → String
  | .mk _ n _ => n

/-- Field accessor. -/
def methods : LoxClass → List (String × LoxFunction)
  | .mk _ _ m => m

/-- Field accessor. -/
def superclass : LoxClass → Option LoxClass
  | .mk s _ _ => s

/-- `HashMap::get` on the method table. -/
def methodLookup : List (String × LoxFunction) → String → Option LoxFunction
  | [], _ => none
  | (k, f) :: t, n => if k = n then some f else methodLookup t n

/-- class.rs `find_method`: current class's table first, then the superclass
chain. -/
def find_method : LoxClass → String → Option LoxFunction
  | .mk superclass _ methods, n =>
      match methodLookup methods n with
      | some m => some m
      | none =>
          match superclass with
          | some sc => sc.find_method n
          | none => none

end LoxClass

namespace LoxInstance

/-- Field accessor. -/
def klass : LoxInstance → LoxClass
  | .mk k _ => k

/-- Field accessor. -/
def fields : LoxInstance → List (String × Value)
  | .mk _ f => f

/-- class.rs `LoxInstance::new`: a fresh instance with empty fields. -/
def new (klass : LoxClass) : LoxInstance := .mk klass []

/-- class.rs `LoxInstance::set`: insert into the instance's own field map. -/
def set (inst : LoxInstance) (name : Token) (value : Value) : LoxInstance :=
  .mk inst.klass (insertAssoc inst.fields name.lexeme value)

end LoxInstance

/-- Modelled from the spec: `LoxFunction::bind` lives in the missing evaluator
module.  Spec section 4.5 (Get): a bound method is a new `LoxFunction` whose
closure extends the original with a one-frame scope defining `this` = the
instance.  Note that the instance is passed *by value* (class.rs calls
`bind(instance.clone())` / `bind(self.clone())`). -/
def LoxFunction.bind (f : LoxFunction) (inst : LoxInstance) : LoxFunction :=
  .mk f.declaration
    ((Environment.new_enclosed f.closure).define "this" (.loxInstance inst))

/-- State threaded through the evaluator: the current environment and the
text printed so far. -/
structure EvalState where
  env : Environment
  output : List String

/-- Outcome of evaluating an expression or statement.  `err` keeps the state
reached so far because printed output survives an unwind. -/
inductive EOut (α : Type) where
  | ok (a : α) (st : EvalState)
  | err (e : RuntimeErrorKind) (st : EvalState)
  | crash (msg : String)

/-- Modelled from the spec: `stringify` of the missing evaluator module
(spec section 4.5, Print).  Numbers are modelled by `Int`, so the trimmed
decimal is just `toString`. -/
def stringify : Value → String
  | .nil => "nil"
  | .bool true => "true"
  | .bool false => "false"
  | .number n => toString n
  | .str s => s
  | .callable .clockFn => "<native fn>"
  | .callable (.loxFunction f) =>
      match f.declaration with
      | .function name _ _ => "<fn " ++ name.lexeme ++ ">"
      | _ => "<fn>"
  | .callable (.loxClass c) => c.name
  | .loxInstance i => i.klass.name ++ " instance"

/-- The value of a literal (spec section 4.5, Literal). -/
def Literal.toValue : Literal → Value
  | .str s => .str s
  | .number n => .number n
  | .bool b => .bool b
  | .nil => .nil

mutual

/-- Modelled from the spec: the expression evaluator of the missing evaluator
module, restricted to the forms the claims exercise (literal, grouping,
variable read, assignment, `+`, `this`, field set).  Variable reads and
assignments walk the chain with environment.rs `get`/`assign` (for the
programs considered here the statically resolved depth lookup of spec
section 4.5 reads and writes exactly the same frame).  A `Set` on an object
named by `this` or a variable writes the updated instance back to that
binding — the most generous reading of spec section 9's shared-instance
requirement that value-typed environments allow.  Forms outside the modelled
fragment crash. -/
def evalExpr (fuel : Nat) (st : EvalState) : Expr → EOut Value
  | .literal v => .ok v.toValue st
  | .grouping e =>
      match fuel with
      | 0 => .crash "out of fuel"
      | fuel' + 1 => evalExpr fuel' st e
  | .variable name _ =>
      (match st.env.get name with
       | .ok v => .ok v st
       | .err e => .err e st
       | .crash m => .crash m)
  | .this kw =>
      (match st.env.get kw with
       | .ok v => .ok v st
       | .err e => .err e st
       | .crash m => .crash m)
  | .assign name value =>
      (match fuel with
       | 0 => .crash "out of fuel"
       | fuel' + 1 =>
          match evalExpr fuel' st value with
          | .ok v st' =>
              (match st'.env.assign name v with
               | .ok env' => .ok v { st' with env := env' }
               | .err e => .err e st'
               | .crash m => .crash m)
          | .err e st' => .err e st'
          | .crash m => .crash m)
  | .binary l op r =>
      (match fuel with
       | 0 => .crash "out of fuel"
       | fuel' + 1 =>
          match evalExpr fuel' st l with
          | .ok vl st1 =>
              (match evalExpr fuel' st1 r with
               | .ok vr st2 =>
                  (if op.token_type = .plus then
                    match vl, vr with
                    | .number a, .number b => .ok (.number (a + b)) st2
                    | .str a, .str b => .ok (.str (a ++ b)) st2
                    | _, _ =>
                        .err (.new_ op
                          "Operands must be two numbers or two strings.") st2
                   else .crash "operator outside the modelled fragment")
               | .err e st2 => .err e st2
               | .crash m => .crash m)
          | .err e st1 => .err e st1
          | .crash m => .crash m)
  | .set obj name value =>
      (match fuel with
       | 0 => .crash "out of fuel"
       | fuel' + 1 =>
          match evalExpr fuel' st obj with
          | .ok (.loxInstance inst) st1 =>
              (match evalExpr fuel' st1 value with
               | .ok v st2 =>
                  let inst' := inst.set name v
                  (match obj with
                   | .this kw =>
                      (match st2.env.assign kw (.loxInstance inst') with
                       | .ok env' => .ok v { st2 with env := env' }
                       | .err e => .err e st2
                       | .crash m => .crash m)
                   | .variable vn _ =>
                      (match st2.env.assign vn (.loxInstance inst') with
                       | .ok env' => .ok v { st2 with env := env' }
                       | .err e => .err e st2
                       | .crash m => .crash m)
                   | _ => .ok v st2)
               | .err e st2 => .err e st2
               | .crash m => .crash m)
          | .ok _ st1 =>
              .err (.new_ name "Only instances have properties.") st1
          | .err e st1 => .err e st1
          | .crash m => .crash m)
  | _ => .crash "expression form outside the modelled fragment"

/-- Modelled from the spec: statement execution of the missing evaluator
module for the statement forms the claims exercise (expression statements,
print, var).  Print appends `stringify` of the value to the output. -/
def execStmt (fuel : Nat) (st : EvalState) : Stmt → EOut Unit
  | .expression e =>
      (match fuel with
       | 0 => .crash "out of fuel"
       | fuel' + 1 =>
          match evalExpr fuel' st e with
          | .ok _ st' => .ok () st'
          | .err e' st' => .err e' st'
          | .crash m => .crash m)
  | .print e =>
      (match fuel with
       | 0 => .crash "out of fuel"
       | fuel' + 1 =>
          match evalExpr fuel' st e with
          | .ok v st' =>
              .ok () { st' with output := st'.output ++ [stringify v] }
          | .err e' st' => .err e' st'
          | .crash m => .crash m)
  | .var_ name init =>
      (match fuel with
       | 0 => .crash "out of fuel"
       | fuel' + 1 =>
          match init with
          | some e =>
              (match evalExpr fuel' st e with
               | .ok v st' =>
                  .ok () { st' with env := st'.env.define name.lexeme v }
               | .err e' st' => .err e' st'
               | .crash m => .crash m)
          | none =>
              .ok () { st with env := st.env.define name.lexeme .nil })
  | .return_ _kw value =>
      (match fuel with
       | 0 => .crash "out of fuel"
       | fuel' + 1 =>
          match value with
          | some e =>
              (match evalExpr fuel' st e with
               | .ok v st' => .err (.returnSignal (some v)) st'
               | .err e' st' => .err e' st'
               | .crash m => .crash m)
          | none => .err (.returnSignal none) st)
  | _ => .crash "statement form outside the modelled fragment"

/-- Modelled from the spec: the evaluator's `execute_block` (missing
evaluator.rs) running a statement list in the given state; the caller is
responsible for restoring the previous environment afterwards (spec
section 4.5, Block). -/
def execute_block (fuel : Nat) (st : EvalState) : List Stmt → EOut Unit
  | [] => .ok () st
  | s :: rest =>
      (match fuel with
       | 0 => .crash "out of fuel"
       | fuel' + 1 =>
          match execStmt fuel' st s with
          | .ok () st' => execute_block fuel' st' rest
          | .err e st' => .err e st'
          | .crash m => .crash m)

end

/-- Bind parameters to arguments in lockstep (function.rs step ②:
`params.iter().zip(arguments.drain(..))` followed by `env.define`). -/
def bindParams (env : Environment) :
    List Token → List Value → Environment
  | tok :: ps, arg :: as_ => bindParams (env.define tok.lexeme arg) ps as_
  | _, _ => env

/-- function.rs `LoxFunction::call` (`impl LoxCallable`): ① build a new
activation record chained to a by-value copy of the captured closure
(`(*self.closure).clone()` then `Environment::new_enclosed`); ② bind
parameters; ③ execute the body through `execute_block`, mapping a `Return`
unwind to its value and a normal exit to `Nil`.  The caller's environment is
whatever it was before (the call only returns a value), so the state handed
back keeps the caller's `env` and the output accumulated by the body. -/
def LoxFunction.call (fuel : Nat) (f : LoxFunction) (arguments : List Value)
    (st : EvalState) : EOut Value :=
  let env0 := Environment.new_enclosed f.closure
  match f.declaration with
  | .function _name params body =>
      let env1 := bindParams env0 params arguments
      (match execute_block fuel { env := env1, output := st.output } body with
       | .ok () st' => .ok .nil { env := st.env, output := st'.output }
       | .err (.returnSignal v) st' =>
          .ok (v.getD .nil) { env := st.env, output := st'.output }
       | .err e st' => .err e { env := st.env, output := st'.output }
       | .crash m => .crash m)
  | _ => .crash "LoxFunction without Function declaration"

/-- class.rs `LoxClass::call` (`impl LoxCallable`): create a fresh
`LoxInstance`; if the class chain has an `init` method, bind it **to a clone
of the instance** (`init_method.bind(instance.clone())`) and invoke it,
propagating errors; then return the original, untouched `instance`. -/
def LoxClass.call (fuel : Nat) (klass : LoxClass) (arguments : List Value)
    (st : EvalState) : EOut Value :=
  let inst0 := LoxInstance.new klass
  match klass.find_method "init" with
  | some init_method =>
      (match (init_method.bind inst0).call fuel arguments st with
       | .ok _ st' => .ok (.loxInstance inst0) st'
       | .err e st' => .err e st'
       | .crash m => .crash m)
  | none => .ok (.loxInstance inst0) st

/-- class.rs `LoxClass::arity`: the initializer's arity, or 0 when the class
has no `init`. -/
def LoxClass.arity (klass : LoxClass) : Nat :=
  match klass.find_method "init" with
  | some init => init.arity
  | none => 0

/-- Observer used to inspect what the *bound* initializer saw: run the same
bound `init` invocation that `LoxClass.call` performs, then read the `this`
binding of the initializer's activation environment.  This duplicates the
steps of `LoxFunction.call` up to the body execution but keeps the final
body environment instead of discarding it. -/
def boundInitThisAfter (fuel : Nat) (klass : LoxClass) (arguments : List Value)
    : RtOut Value :=
  let inst0 := LoxInstance.new klass
  match klass.find_method "init" with
  | none => .crash "class has no init"
  | some init_method =>
      let bound := (init_method.bind inst0)
      let env0 := Environment.new_enclosed bound.closure
      match bound.declaration with
      | .function _name params body =>
          let env1 := bindParams env0 params arguments
          (match execute_block fuel { env := env1, output := [] } body with
           | .ok () st' =>
              st'.env.get (Token.mk .this_ "this" .nil 0)
           | .err (.returnSignal _) st' =>
              st'.env.get (Token.mk .this_ "this" .nil 0)
           | .err e _ => .err e
           | .crash m => .crash m)
      | _ => .crash "init is not a function declaration"

/-- Parser state, from parser.rs `struct Parser` (`tokens`, `current`),
extended with the diagnostics reported through the repository's missing
`utils` sink (`report` / `error`); per spec section 6 a compile-time
diagnostic is `"[line N] Error<where>: <message>"`. -/
structure PState where
  tokens : List Token
  current : Nat
  diags : List String
deriving Repr

/-- Outcome of a parser routine: `ok` and `err` mirror
`Result<_, ParseError>` (the state is threaded because the Rust methods take
`&mut self`), and `crash` models a Rust panic (`unwrap`, `expect`,
`panic!`, index errors). -/
inductive PRes (α : Type) where
  | ok (a : α) (s : PState)
  | err (s : PState)
  | crash (msg : String)

namespace Parser

/-- parser.rs `peek`: the token at `current`.  Total via an `Eof` default
that is unreachable for scanner outputs, which always end in `Eof` and are
never stepped past it (`advance` stops at `Eof`). -/
def peek (s : PState) : Token :=
  s.tokens.getD s.current (Token.mk .eof "" .nil 0)

/-- parser.rs `is_at_end`. -/
def is_at_end (s : PState) : Bool :=
  (peek s).token_type = .eof

/-- parser.rs `previous`: panics when `current == 0`. -/
def previous (s : PState) : PRes Token :=
  if s.current = 0 then
    .crash "Index error: tried to access previous token at position 0."
  else
    .ok (s.tokens.getD (s.current - 1) (Token.mk .eof "" .nil 0)) s

/-- parser.rs `check`. -/
def check (s : PState) (token_type : TokenType) : Bool :=
  if is_at_end s then false else (peek s).token_type = token_type

/-- parser.rs `advance`: step unless at `Eof`, then return `previous()`. -/
def advance (s : PState) : PRes Token :=
  let s' := if is_at_end s then s else { s with current := s.current + 1 }
  previous s'

/-- The missing `utils::report` sink, modelled from the spec (section 6
diagnostic format): append `"[line N] Error<where>: <message>"`. -/
def report (s : PState) (line : Nat) (whereAt : String) (message : String) :
    PState :=
  { s with diags :=
      s.diags ++ ["[line " ++ toString line ++ "] Error" ++ whereAt ++ ": "
        ++ message] }

/-- parser.rs `Parser::error`: report at the offending token (`" at end"`
for `Eof`, `" at \x27lexeme\x27"` otherwise) and produce a `ParseError`. -/
def perror (s : PState) (token : Token) (message : String) : PState :=
  match token.token_type with
  | .eof => report s token.line " at end" message
  | _ =>
      report s token.line (" at \x27" ++ token.lexeme ++ "\x27") message

/-- The missing `utils::error` (scanner-style, no location lexeme), modelled
from the spec's diagnostic format with an empty `<where>`. -/
def utilsError (s : PState) (line : Nat) (message : String) : PState :=
  report s line "" message

/-- parser.rs `match_tokens`: the loop body computes `true` but **discards
it** (`true;`), so the function advances past every type that checks but
always returns `false`. -/
def match_tokens (s : PState) (types : List TokenType) : PRes Bool :=
  match types with
  | [] => .ok false s
  | t :: rest =>
      if check s t then
        match advance s with
        | .ok _ s' => match_tokens s' rest
        | .err s' => .err s'
        | .crash m => .crash m
      else match_tokens s rest

/-- parser.rs `match_stmt`: check-and-advance, returning whether it
matched (this one is written correctly in the source). -/
def match_stmt (s : PState) (expected : TokenType) : PRes Bool :=
  if check s expected then
    match advance s with
    | .ok _ s' => .ok true s'
    | .err s' => .err s'
    | .crash m => .crash m
  else .ok false s

/-- parser.rs `consume`: advance when the next token checks, otherwise
report and fail. -/
def consume (s : PState) (token_type : TokenType) (message : String) :
    PRes Token :=
  if check s token_type then advance s
  else .err (perror s (peek s) message)

mutual

/-- parser.rs `expression`: delegates to `or_expr` (the `assignment` routine
below is *not* on this path). -/
def expression (fuel : Nat) (s : PState) : PRes Expr :=
  match fuel with
  | 0 => .crash "out of fuel"
  | fuel' + 1 => or_expr fuel' s

/-- parser.rs `assignment` (unreachable from `expression`): parse the left
side with `or_expr`, then look for `=` via the broken `match_tokens`; in the
(dead) success branch a `Variable` left side becomes `Assign` and any other
left side is `Err(ParseError)` with no report and the expression discarded. -/
def assignment (fuel : Nat) (s : PState) : PRes Expr :=
  match fuel with
  | 0 => .crash "out of fuel"
  | fuel' + 1 =>
      match or_expr fuel' s with
      | .ok expr s1 =>
          (match match_tokens s1 [.equal] with
           | .ok true s2 =>
              (match previous s2 with
               | .ok _equals s3 =>
                  (match assignment fuel' s3 with
                   | .ok value s4 =>
                      (match expr with
                       | .variable name _ => .ok (.assign name value) s4
                       | _ => .err s4)
                   | .err s4 => .err s4
                   | .crash m => .crash m)
               | .err s3 => .err s3
               | .crash m => .crash m)
           | .ok false s2 => .ok expr s2
           | .err s2 => .err s2
           | .crash m => .crash m)
      | .err s1 => .err s1
      | .crash m => .crash m

/-- parser.rs `or_expr`: `and_expr` followed by the `or` fold (dead, since
`match_tokens` always answers `false`). -/
def or_expr (fuel : Nat) (s : PState) : PRes Expr :=
  match fuel with
  | 0 => .crash "out of fuel"
  | fuel' + 1 =>
      match and_expr fuel' s with
      | .ok expr s1 => or_loop fuel' expr s1
      | .err s1 => .err s1
      | .crash m => .crash m

/-- The `while match_tokens([Or])` fold of `or_expr`. -/
def or_loop (fuel : Nat) (expr : Expr) (s : PState) : PRes Expr :=
  match fuel with
  | 0 => .crash "out of fuel"
  | fuel' + 1 =>
      match match_tokens s [.or_] with
      | .ok true s1 =>
          (match previous s1 with
           | .ok operator s2 =>
              (match and_expr fuel' s2 with
               | .ok right s3 =>
                  or_loop fuel' (.logical expr operator right) s3
               | .err s3 => .err s3
               | .crash m => .crash m)
           | .err s2 => .err s2
           | .crash m => .crash m)
      | .ok false s1 => .ok expr s1
      | .err s1 => .err s1
      | .crash m => .crash m

/-- parser.rs `and_expr`. -/
def and_expr (fuel : Nat) (s : PState) : PRes Expr :=
  match fuel with
  | 0 => .crash "out of fuel"
  | fuel' + 1 =>
      match equality fuel' s with
      | .ok expr s1 => and_loop fuel' expr s1
      | .err s1 => .err s1
      | .crash m => .crash m

/-- The `while match_tokens([And])` fold of `and_expr`. -/
def and_loop (fuel : Nat) (expr : Expr) (s : PState) : PRes Expr :=
  match fuel with
  | 0 => .crash "out of fuel"
  | fuel' + 1 =>
      match match_tokens s [.and_] with
      | .ok true s1 =>
          (match previous s1 with
           | .ok operator s2 =>
              (match equality fuel' s2 with
               | .ok right s3 =>
                  and_loop fuel' (.logical expr operator right) s3
               | .err s3 => .err s3
               | .crash m => .crash m)
           | .err s2 => .err s2
           | .crash m => .crash m)
      | .ok false s1 => .ok expr s1
      | .err s1 => .err s1
      | .crash m => .crash m

/-- parser.rs `equality`. -/
def equality (fuel : Nat) (s : PState) : PRes Expr :=
  match fuel with
  | 0 => .crash "out of fuel"
  | fuel' + 1 =>
      match comparison fuel' s with
      | .ok expr s1 => equality_loop fuel' expr s1
      | .err s1 => .err s1
      | .crash m => .crash m

/-- The `while match_tokens([BangEqual, EqualEqual])` fold of `equality`. -/
def equality_loop (fuel : Nat) (expr : Expr) (s : PState) : PRes Expr :=
  match fuel with
  | 0 => .crash "out of fuel"
  | fuel' + 1 =>
      match match_tokens s [.bangEqual, .equalEqual] with
      | .ok true s1 =>
          (match previous s1 with
           | .ok operator s2 =>
              (match comparison fuel' s2 with
               | .ok right s3 =>
                  equality_loop fuel' (.binary expr operator right) s3
               | .err s3 => .err s3
               | .crash m => .crash m)
           | .err s2 => .err s2
           | .crash m => .crash m)
      | .ok false s1 => .ok expr s1
      | .err s1 => .err s1
      | .crash m => .crash m

/-- parser.rs `comparison`. -/
def comparison (fuel : Nat) (s : PState) : PRes Expr :=
  match fuel with
  | 0 => .crash "out of fuel"
  | fuel' + 1 =>
      match term fuel' s with
      | .ok expr s1 => comparison_loop fuel' expr s1
      | .err s1 => .err s1
      | .crash m => .crash m

/-- The comparison-operator fold of `comparison`. -/
def comparison_loop (fuel : Nat) (expr : Expr) (s : PState) : PRes Expr :=
  match fuel with
  | 0 => .crash "out of fuel"
  | fuel' + 1 =>
      match match_tokens s
          [.greater, .greaterEqual, .less, .lessEqual] with
      | .ok true s1 =>
          (match previous s1 with
           | .ok operator s2 =>
              (match term fuel' s2 with
               | .ok right s3 =>
                  comparison_loop fuel' (.binary expr operator right) s3
               | .err s3 => .err s3
               | .crash m => .crash m)
           | .err s2 => .err s2
           | .crash m => .crash m)
      | .ok false s1 => .ok expr s1
      | .err s1 => .err s1
      | .crash m => .crash m

/-- parser.rs `term`. -/
def term (fuel : Nat) (s : PState) : PRes Expr :=
  match fuel with
  | 0 => .crash "out of fuel"
  | fuel' + 1 =>
      match factor fuel' s with
      | .ok expr s1 => term_loop fuel' expr s1
      | .err s1 => .err s1
      | .crash m => .crash m

/-- The `while match_tokens([Minus, Plus])` fold of `term`. -/
def term_loop (fuel : Nat) (expr : Expr) (s : PState) : PRes Expr :=
  match fuel with
  | 0 => .crash "out of fuel"
  | fuel' + 1 =>
      match match_tokens s [.minus, .plus] with
      | .ok true s1 =>
          (match previous s1 with
           | .ok operator s2 =>
              (match factor fuel' s2 with
               | .ok right s3 =>
                  term_loop fuel' (.binary expr operator right) s3
               | .err s3 => .err s3
               | .crash m => .crash m)
           | .err s2 => .err s2
           | .crash m => .crash m)
      | .ok false s1 => .ok expr s1
      | .err s1 => .err s1
      | .crash m => .crash m

/-- parser.rs `factor`. -/
def factor (fuel : Nat) (s : PState) : PRes Expr :=
  match fuel with
  | 0 => .crash "out of fuel"
  | fuel' + 1 =>
      match unary fuel' s with
      | .ok expr s1 => factor_loop fuel' expr s1
      | .err s1 => .err s1
      | .crash m => .crash m

/-- The `while match_tokens([Slash, Star])` fold of `factor`. -/
def factor_loop (fuel : Nat) (expr : Expr) (s : PState) : PRes Expr :=
  match fuel with
  | 0 => .crash "out of fuel"
  | fuel' + 1 =>
      match match_tokens s [.slash, .star] with
      | .ok true s1 =>
          (match previous s1 with
           | .ok operator s2 =>
              (match unary fuel' s2 with
               | .ok right s3 =>
                  factor_loop fuel' (.binary expr operator right) s3
               | .err s3 => .err s3
               | .crash m => .crash m)
           | .err s2 => .err s2
           | .crash m => .crash m)
      | .ok false s1 => .ok expr s1
      | .err s1 => .err s1
      | .crash m => .crash m

/-- parser.rs `unary`. -/
def unary (fuel : Nat) (s : PState) : PRes Expr :=
  match fuel with
  | 0 => .crash "out of fuel"
  | fuel' + 1 =>
      match match_tokens s [.bang, .minus] with
      | .ok true s1 =>
          (match previous s1 with
           | .ok operator s2 =>
              (match unary fuel' s2 with
               | .ok right s3 => .ok (.unary operator right) s3
               | .err s3 => .err s3
               | .crash m => .crash m)
           | .err s2 => .err s2
           | .crash m => .crash m)
      | .ok false s1 => callRule fuel' s1
      | .err s1 => .err s1
      | .crash m => .crash m

/-- parser.rs `call` (named `callRule` here because `call` is taken by the
callables): `primary`, then repeatedly `finish_call` while `match_tokens`
sees a `(`.  When `primary` failed, the loop guard still runs once before
the error is returned. -/
def callRule (fuel : Nat) (s : PState) : PRes Expr :=
  match fuel with
  | 0 => .crash "out of fuel"
  | fuel' + 1 =>
      match primary fuel' s with
      | .ok expr s1 => call_loop fuel' expr s1
      | .err s1 =>
          (match match_tokens s1 [.leftParen] with
           | .ok _ s2 => .err s2
           | .err s2 => .err s2
           | .crash m => .crash m)
      | .crash m => .crash m

/-- The `loop` of parser.rs `call`. -/
def call_loop (fuel : Nat) (expr : Expr) (s : PState) : PRes Expr :=
  match fuel with
  | 0 => .crash "out of fuel"
  | fuel' + 1 =>
      match match_tokens s [.leftParen] with
      | .ok true s1 =>
          (match finish_call fuel' expr s1 with
           | .ok expr' s2 => call_loop fuel' expr' s2
           | .err s2 => .err s2
           | .crash m => .crash m)
      | .ok false s1 => .ok expr s1
      | .err s1 => .err s1
      | .crash m => .crash m

/-- parser.rs `finish_call`: gather comma-separated arguments (reporting —
but not failing — past 255 via `utils::error`), then consume `)`. -/
def finish_call (fuel : Nat) (callee : Expr) (s : PState) : PRes Expr :=
  match fuel with
  | 0 => .crash "out of fuel"
  | fuel' + 1 =>
      if check s .rightParen then
        (match consume s .rightParen "Expect \x27)\x27 after arguments." with
         | .ok paren s1 => .ok (.call callee paren []) s1
         | .err s1 => .err s1
         | .crash m => .crash m)
      else
        (match args_loop fuel' [] s with
         | .ok arguments s1 =>
            (match consume s1 .rightParen
                "Expect \x27)\x27 after arguments." with
             | .ok paren s2 => .ok (.call callee paren arguments) s2
             | .err s2 => .err s2
             | .crash m => .crash m)
         | .err s1 => .err s1
         | .crash m => .crash m)

/-- The argument-gathering loop of `finish_call`. -/
def args_loop (fuel : Nat) (arguments : List Expr) (s : PState) :
    PRes (List Expr) :=
  match fuel with
  | 0 => .crash "out of fuel"
  | fuel' + 1 =>
      let s0 :=
        if arguments.length ≥ 255 then
          utilsError s (peek s).line "Can\x27t have more than 255 arguments"
        else s
      match expression fuel' s0 with
      | .ok arg s1 =>
          let arguments' := arguments ++ [arg]
          (match match_tokens s1 [.comma] with
           | .ok true s2 => args_loop fuel' arguments' s2
           | .ok false s2 => .ok arguments' s2
           | .err s2 => .err s2
           | .crash m => .crash m)
      | .err s1 => .err s1
      | .crash m => .crash m

/-- parser.rs `primary`.  Note the source's slips: the `LeftParen` arm never
consumes the `(` (and panics via `expect` when the inner `)` is missing), and
the `Identifier` arm builds `Expr::Variable` from `previous()` without
advancing. -/
def primary (fuel : Nat) (s : PState) : PRes Expr :=
  match fuel with
  | 0 => .crash "out of fuel"
  | fuel' + 1 =>
      match (peek s).token_type with
      | .false_ =>
          (match advance s with
           | .ok _ s1 => .ok (.literal (.bool false)) s1
           | .err s1 => .err s1
           | .crash m => .crash m)
      | .true_ =>
          (match advance s with
           | .ok _ s1 => .ok (.literal (.bool true)) s1
           | .err s1 => .err s1
           | .crash m => .crash m)
      | .nil =>
          (match advance s with
           | .ok _ s1 => .ok (.literal .nil) s1
           | .err s1 => .err s1
           | .crash m => .crash m)
      | .number =>
          (match advance s with
           | .ok _ s1 => .ok (.literal (peek s).literal) s1
           | .err s1 => .err s1
           | .crash m => .crash m)
      | .string =>
          (match advance s with
           | .ok _ s1 => .ok (.literal (peek s).literal) s1
           | .err s1 => .err s1
           | .crash m => .crash m)
      | .leftParen =>
          (match expression fuel' s with
           | .ok expr s1 =>
              (match consume s1 .rightParen
                  "Expect \x27)\x27 after expression." with
               | .ok _ s2 => .ok (.grouping expr) s2
               | .err _ => .crash "TODO: panic message"
               | .crash m => .crash m)
           | .err s1 => .err s1
           | .crash m => .crash m)
      | .identifier =>
          (match previous s with
           | .ok prev s1 => .ok (.variable prev none) s1
           | .err s1 => .err s1
           | .crash m => .crash m)
      | _ => .err (perror s (peek s) "Expected an expression.")

/-- parser.rs `block`: the loop guard is
`check(RightBrace) && !is_at_end()` — it gathers declarations only while the
next token *is* `\x7d` — and both the per-declaration `unwrap` and the final
`consume(RightBrace).expect(..)` panic on failure. -/
def block (fuel : Nat) (statements : List Stmt) (s : PState) :
    PRes (List Stmt) :=
  match fuel with
  | 0 => .crash "out of fuel"
  | fuel' + 1 =>
      if check s .rightBrace && !is_at_end s then
        match declaration fuel' s with
        | .ok stmt s1 => block fuel' (statements ++ [stmt]) s1
        | .err _ => .crash "called Result unwrap on an Err value: ParseError"
        | .crash m => .crash m
      else
        (match consume s .rightBrace "Expect \x27\x7d\x27 after block." with
         | .ok _ s1 => .ok statements s1
         | .err _ => .crash "Expect \x27\x7d\x27 after block."
         | .crash m => .crash m)

/-- parser.rs `expr_stmt`. -/
def expr_stmt (fuel : Nat) (s : PState) : PRes Stmt :=
  match fuel with
  | 0 => .crash "out of fuel"
  | fuel' + 1 =>
      match expression fuel' s with
      | .ok expr s1 =>
          (match consume s1 .semiColon "Expect \x27;\x27 after value." with
           | .ok _ s2 => .ok (.expression expr) s2
           | .err s2 => .err s2
           | .crash m => .crash m)
      | .err s1 => .err s1
      | .crash m => .crash m

/-- parser.rs `print_stmt`. -/
def print_stmt (fuel : Nat) (s : PState) : PRes Stmt :=
  match fuel with
  | 0 => .crash "out of fuel"
  | fuel' + 1 =>
      match expression fuel' s with
      | .ok value s1 =>
          (match consume s1 .semiColon "Expect \x27;\x27 after value." with
           | .ok _ s2 => .ok (.print value) s2
           | .err s2 => .err s2
           | .crash m => .crash m)
      | .err s1 => .err s1
      | .crash m => .crash m

/-- parser.rs `return_statement`. -/
def return_statement (fuel : Nat) (s : PState) : PRes Stmt :=
  match fuel with
  | 0 => .crash "out of fuel"
  | fuel' + 1 =>
      match previous s with
      | .ok keyword s1 =>
          (if !check s1 .semiColon then
            match expression fuel' s1 with
            | .ok v s2 =>
                (match consume s2 .semiColon
                    "Expect \x27;\x27 after return value." with
                 | .ok _ s3 => .ok (.return_ keyword (some v)) s3
                 | .err s3 => .err s3
                 | .crash m => .crash m)
            | .err s2 => .err s2
            | .crash m => .crash m
          else
            match consume s1 .semiColon
                "Expect \x27;\x27 after return value." with
            | .ok _ s2 => .ok (.return_ keyword none) s2
            | .err s2 => .err s2
            | .crash m => .crash m)
      | .err s1 => .err s1
      | .crash m => .crash m

/-- parser.rs `if_stmt`. -/
def if_stmt (fuel : Nat) (s : PState) : PRes Stmt :=
  match fuel with
  | 0 => .crash "out of fuel"
  | fuel' + 1 =>
      match consume s .leftParen "Expect \x27(\x27 after \x27if\x27." with
      | .ok _ s1 =>
          (match expression fuel' s1 with
           | .ok condition s2 =>
              (match consume s2 .rightParen
                  "Expect \x27)\x27 after if condition." with
               | .ok _ s3 =>
                  (match statement fuel' s3 with
                   | .ok then_branch s4 =>
                      (match match_tokens s4 [.else_] with
                       | .ok true s5 =>
                          (match statement fuel' s5 with
                           | .ok else_branch s6 =>
                              .ok (.if_ condition then_branch
                                (some else_branch)) s6
                           | .err s6 => .err s6
                           | .crash m => .crash m)
                       | .ok false s5 =>
                          .ok (.if_ condition then_branch none) s5
                       | .err s5 => .err s5
                       | .crash m => .crash m)
                   | .err s4 => .err s4
                   | .crash m => .crash m)
               | .err s3 => .err s3
               | .crash m => .crash m)
           | .err s2 => .err s2
           | .crash m => .crash m)
      | .err s1 => .err s1
      | .crash m => .crash m

/-- parser.rs `while_stmt` (its messages reuse the `if` wording, as in the
source). -/
def while_stmt (fuel : Nat) (s : PState) : PRes Stmt :=
  match fuel with
  | 0 => .crash "out of fuel"
  | fuel' + 1 =>
      match consume s .leftParen "Expect \x27(\x27 after \x27if\x27." with
      | .ok _ s1 =>
          (match expression fuel' s1 with
           | .ok condition s2 =>
              (match consume s2 .rightParen
                  "Expect \x27)\x27 after if condition." with
               | .ok _ s3 =>
                  (match statement fuel' s3 with
                   | .ok body s4 => .ok (.while_ condition body) s4
                   | .err s4 => .err s4
                   | .crash m => .crash m)
               | .err s3 => .err s3
               | .crash m => .crash m)
           | .err s2 => .err s2
           | .crash m => .crash m)
      | .err s1 => .err s1
      | .crash m => .crash m

/-- parser.rs `for_stmt`: the desugaring into `Block`/`While`. -/
def for_stmt (fuel : Nat) (s : PState) : PRes Stmt :=
  match fuel with
  | 0 => .crash "out of fuel"
  | fuel' + 1 =>
      match consume s .leftParen "Expect \x27(\x27 after \x27for\x27." with
      | .ok _ s1 => for_stmt_initializer fuel' s1
      | .err s1 => .err s1
      | .crash m => .crash m

/-- `for_stmt`, continued: the three clause parses and the desugaring. -/
def for_stmt_initializer (fuel : Nat) (s : PState) : PRes Stmt :=
  match fuel with
  | 0 => .crash "out of fuel"
  | fuel' + 1 =>
      match match_tokens s [.semiColon] with
      | .ok true s1 => for_stmt_rest fuel' none s1
      | .ok false s1 =>
          (match match_tokens s1 [.var_] with
           | .ok true s2 =>
              (match var_declaration fuel' s2 with
               | .ok init s3 => for_stmt_rest fuel' (some init) s3
               | .err s3 => .err s3
               | .crash m => .crash m)
           | .ok false s2 =>
              (match expr_stmt fuel' s2 with
               | .ok init s3 => for_stmt_rest fuel' (some init) s3
               | .err s3 => .err s3
               | .crash m => .crash m)
           | .err s2 => .err s2
           | .crash m => .crash m)
      | .err s1 => .err s1
      | .crash m => .crash m

/-- `for_stmt`, continued: condition, increment, body, desugaring. -/
def for_stmt_rest (fuel : Nat) (initializer : Option Stmt) (s : PState) :
    PRes Stmt :=
  match fuel with
  | 0 => .crash "out of fuel"
  | fuel' + 1 =>
      let condRes : PRes (Option Expr) :=
        if !check s .semiColon then
          match expression fuel' s with
          | .ok c s1 => .ok (some c) s1
          | .err s1 => .err s1
          | .crash m => .crash m
        else .ok none s
      match condRes with
      | .ok condition s1 =>
          (match consume s1 .semiColon
              "Expect \x27;\x27 after loop condition." with
           | .ok _ s2 =>
              let incRes : PRes (Option Expr) :=
                if !check s2 .rightParen then
                  match expression fuel' s2 with
                  | .ok e s3 => .ok (some e) s3
                  | .err s3 => .err s3
                  | .crash m => .crash m
                else .ok none s2
              (match incRes with
               | .ok increment s3 =>
                  (match consume s3 .rightParen
                      "Expect \x27)\x27 after for clauses." with
                   | .ok _ s4 =>
                      (match statement fuel' s4 with
                       | .ok body s5 =>
                          let body1 :=
                            match increment with
                            | some inc =>
                                Stmt.block [body, .expression inc]
                            | none => body
                          let cond_expr :=
                            condition.getD (.literal (.bool true))
                          let body2 := Stmt.while_ cond_expr body1
                          let body3 :=
                            match initializer with
                            | some init => Stmt.block [init, body2]
                            | none => body2
                          .ok body3 s5
                       | .err s5 => .err s5
                       | .crash m => .crash m)
                   | .err s4 => .err s4
                   | .crash m => .crash m)
               | .err s3 => .err s3
               | .crash m => .crash m)
           | .err s2 => .err s2
           | .crash m => .crash m)
      | .err s1 => .err s1
      | .crash m => .crash m

/-- parser.rs `statement`: dispatch on `match_stmt` (the working matcher). -/
def statement (fuel : Nat) (s : PState) : PRes Stmt :=
  match fuel with
  | 0 => .crash "out of fuel"
  | fuel' + 1 =>
      match match_stmt s .print with
      | .ok true s1 => print_stmt fuel' s1
      | .ok false s1 =>
          (match match_stmt s1 .leftBrace with
           | .ok true s2 =>
              (match block fuel' [] s2 with
               | .ok statements s3 => .ok (.block statements) s3
               | .err s3 => .err s3
               | .crash m => .crash m)
           | .ok false s2 =>
              (match match_stmt s2 .if_ with
               | .ok true s3 => if_stmt fuel' s3
               | .ok false s3 =>
                  (match match_stmt s3 .while_ with
                   | .ok true s4 => while_stmt fuel' s4
                   | .ok false s4 =>
                      (match match_stmt s4 .for_ with
                       | .ok true s5 => for_stmt fuel' s5
                       | .ok false s5 =>
                          (match match_stmt s5 .return_ with
                           | .ok true s6 => return_statement fuel' s6
                           | .ok false s6 => expr_stmt fuel' s6
                           | .err s6 => .err s6
                           | .crash m => .crash m)
                       | .err s5 => .err s5
                       | .crash m => .crash m)
                   | .err s4 => .err s4
                   | .crash m => .crash m)
               | .err s3 => .err s3
               | .crash m => .crash m)
           | .err s2 => .err s2
           | .crash m => .crash m)
      | .err s1 => .err s1
      | .crash m => .crash m

/-- parser.rs `var_declaration`.  The `= initializer` branch is dead because
`match_tokens` answers `false` (though it still consumes a present `=`). -/
def var_declaration (fuel : Nat) (s : PState) : PRes Stmt :=
  match fuel with
  | 0 => .crash "out of fuel"
  | fuel' + 1 =>
      match consume s .identifier "Expect variable name." with
      | .ok name s1 =>
          (match match_tokens s1 [.equal] with
           | .ok true s2 =>
              (match expression fuel' s2 with
               | .ok init s3 =>
                  (match consume s3 .semiColon
                      "Expect \x27;\x27 after variable declaration." with
                   | .ok _ s4 => .ok (.var_ name (some init)) s4
                   | .err s4 => .err s4
                   | .crash m => .crash m)
               | .err s3 => .err s3
               | .crash m => .crash m)
           | .ok false s2 =>
              (match consume s2 .semiColon
                  "Expect \x27;\x27 after variable declaration." with
               | .ok _ s3 => .ok (.var_ name none) s3
               | .err s3 => .err s3
               | .crash m => .crash m)
           | .err s2 => .err s2
           | .crash m => .crash m)
      | .err s1 => .err s1
      | .crash m => .crash m

/-- parser.rs `function`: name, `(`, parameter loop, `)`, `\x7b`, `block`.
At 255 parameters it *returns* `Err(Parser::error(..))`, aborting the
declaration. -/
def function (fuel : Nat) (s : PState) : PRes Stmt :=
  match fuel with
  | 0 => .crash "out of fuel"
  | fuel' + 1 =>
      match consume s .identifier "Expect function name." with
      | .ok name s1 =>
          (match consume s1 .leftParen
              "Expect \x27(\x27 after function name." with
           | .ok _ s2 =>
              let paramsRes : PRes (List Token) :=
                if !check s2 .rightParen then params_loop fuel' [] s2
                else .ok [] s2
              (match paramsRes with
               | .ok params s3 =>
                  (match consume s3 .rightParen
                      "Expect \x27)\x27 after parameters." with
                   | .ok _ s4 =>
                      (match consume s4 .leftBrace
                          "Expect \x27\x7b\x27 before function body." with
                       | .ok _ s5 =>
                          (match block fuel' [] s5 with
                           | .ok body s6 =>
                              .ok (.function name params body) s6
                           | .err s6 => .err s6
                           | .crash m => .crash m)
                       | .err s5 => .err s5
                       | .crash m => .crash m)
                   | .err s4 => .err s4
                   | .crash m => .crash m)
               | .err s3 => .err s3
               | .crash m => .crash m)
           | .err s2 => .err s2
           | .crash m => .crash m)
      | .err s1 => .err s1
      | .crash m => .crash m

/-- The parameter loop of `function`:
`return Err(error(peek, "Can\x27t have more than 255 parameters."))` at 255,
else consume a parameter name and continue only while `match_tokens([Comma])`
(which always answers `false`, though it consumes a present comma). -/
def params_loop (fuel : Nat) (params : List Token) (s : PState) :
    PRes (List Token) :=
  match fuel with
  | 0 => .crash "out of fuel"
  | fuel' + 1 =>
      if params.length ≥ 255 then
        .err (perror s (peek s) "Can\x27t have more than 255 parameters.")
      else
        match consume s .identifier "Expect parameter name." with
        | .ok p s1 =>
            (match match_tokens s1 [.comma] with
             | .ok true s2 => params_loop fuel' (params ++ [p]) s2
             | .ok false s2 => .ok (params ++ [p]) s2
             | .err s2 => .err s2
             | .crash m => .crash m)
        | .err s1 => .err s1
        | .crash m => .crash m

/-- parser.rs `declaration`: try `var` and `fun` through the broken
`match_tokens` (which consumes the keyword but reports no match), then fall
through to `statement`.  The dead `Err` arms of the `var`/`fun` branches are
`panic!`s in the source. -/
def declaration (fuel : Nat) (s : PState) : PRes Stmt :=
  match fuel with
  | 0 => .crash "out of fuel"
  | fuel' + 1 =>
      match match_tokens s [.var_] with
      | .ok true s1 =>
          (match var_declaration fuel' s1 with
           | .ok stmt s2 => .ok stmt s2
           | .err _ => .crash "Error in processing a variable declaration."
           | .crash m => .crash m)
      | .ok false s1 =>
          (match match_tokens s1 [.fun_] with
           | .ok true s2 =>
              (match function fuel' s2 with
               | .ok stmt s3 => .ok stmt s3
               | .err _ => .crash "Error in processing a function."
               | .crash m => .crash m)
           | .ok false s2 => statement fuel' s2
           | .err s2 => .err s2
           | .crash m => .crash m)
      | .err s1 => .err s1
      | .crash m => .crash m

/-- parser.rs `synchronize`: discard tokens until just past a `;` or just
before a statement keyword. -/
def synchronize (fuel : Nat) (s : PState) : PRes Unit :=
  match fuel with
  | 0 => .crash "out of fuel"
  | fuel' + 1 =>
      match advance s with
      | .ok _ s1 => synchronize_loop fuel' s1
      | .err s1 => .err s1
      | .crash m => .crash m

/-- The scan loop of `synchronize`. -/
def synchronize_loop (fuel : Nat) (s : PState) : PRes Unit :=
  match fuel with
  | 0 => .crash "out of fuel"
  | fuel' + 1 =>
      if is_at_end s then .ok () s
      else
        match previous s with
        | .ok prev s1 =>
            if prev.token_type = .semiColon then .ok () s1
            else
              (match (peek s1).token_type with
               | .class_ | .fun_ | .var_ | .for_ | .if_ | .while_
               | .print | .return_ => .ok () s1
               | _ =>
                  match advance s1 with
                  | .ok _ s2 => synchronize_loop fuel' s2
                  | .err s2 => .err s2
                  | .crash m => .crash m)
        | .err s1 => .err s1
        | .crash m => .crash m

/-- parser.rs `parse`: gather declarations until `Eof`, synchronizing after
each failed one. -/
def parse (fuel : Nat) (statements : List Stmt) (s : PState) :
    PRes (List Stmt) :=
  match fuel with
  | 0 => .crash "out of fuel"
  | fuel' + 1 =>
      if is_at_end s then .ok statements s
      else
        match declaration fuel' s with
        | .ok stmt s1 => parse fuel' (statements ++ [stmt]) s1
        | .err s1 =>
            (match synchronize fuel' s1 with
             | .ok () s2 => parse fuel' statements s2
             | .err s2 => .err s2
             | .crash m => .crash m)
        | .crash m => .crash m

end

end Parser

/-- resolver.rs `enum FunctionType`. -/
inductive FunctionType where
  | none_ | function | method | initializer
deriving DecidableEq, Repr

/-- resolver.rs `enum ClassType`. -/
inductive ClassType where
  | none_ | class_ | subclass
deriving DecidableEq, Repr

/-- Resolver state, from resolver.rs `struct Resolver` plus the parts of the
borrowed `Interpreter` it writes: the side table `locals` (interpreter.rs,
a `HashMap<Expr, usize>` keyed by the *structural* value of the expression)
and the diagnostics reported through the missing `utils::error` sink.
`scopes` is the stack of block scopes with the **innermost scope first**
(the Rust `Vec` keeps the innermost last; reversing makes push/pop `cons`
and `tail`, and the emitted depth `scopes.len() - 1 - i` becomes the plain
position from the head). -/
structure RState where
  scopes : List (List (String × Bool))
  current_function : FunctionType
  current_class : ClassType
  locals : List (Expr × Nat)
  diags : List String

/-- Outcome of a resolver routine: `Result<_, RuntimeError>` plus `crash`
for the source's `unwrap`/`expect` panics. -/
inductive RRes (α : Type) where
  | ok (a : α) (s : RState)
  | err (e : RuntimeErrorKind) (s : RState)
  | crash (msg : String)

namespace Resolver

/-- resolver.rs `Resolver::new`. -/
def new : RState :=
  { scopes := [], current_function := .none_, current_class := .none_,
    locals := [], diags := [] }

/-- `HashMap::insert` on a scope map (`String → bool`). -/
def scopeInsert (scope : List (String × Bool)) (k : String) (b : Bool) :
    List (String × Bool) :=
  match scope with
  | [] => [(k, b)]
  | (k', b') :: t =>
      if k' = k then (k, b) :: t else (k', b') :: scopeInsert t k b

/-- `HashMap::get`/`contains_key` on a scope map. -/
def scopeGet (scope : List (String × Bool)) (k : String) : Option Bool :=
  match scope with
  | [] => none
  | (k', b') :: t => if k' = k then some b' else scopeGet t k

/-- resolver.rs `begin_scope`. -/
def begin_scope (s : RState) : RState :=
  { s with scopes := [] :: s.scopes }

/-- resolver.rs `end_scope`. -/
def end_scope (s : RState) : RState :=
  { s with scopes := s.scopes.tail }

/-- resolver.rs `declare`: mark the name not-ready in the innermost scope,
silently doing nothing when the scope stack is empty. -/
def declare (s : RState) (name : String) : RState :=
  match s.scopes with
  | [] => s
  | innermost :: rest =>
      { s with scopes := scopeInsert innermost name false :: rest }

/-- resolver.rs `define`. -/
def define (s : RState) (name : String) : RState :=
  match s.scopes with
  | [] => s
  | innermost :: rest =>
      { s with scopes := scopeInsert innermost name true :: rest }

/-- interpreter.rs `Interpreter::resolve`:
`self.locals.insert(expr.clone(), depth)` — a `HashMap` insert keyed by the
structural value of the expression, replacing any entry with an equal key. -/
def localsInsert (locals : List (Expr × Nat)) (expr : Expr) (depth : Nat) :
    List (Expr × Nat) :=
  match locals with
  | [] => [(expr, depth)]
  | (e, d) :: t =>
      if exprEq e expr then (expr, depth) :: t
      else (e, d) :: localsInsert t expr depth

/-- `HashMap::get` on the side table (interpreter.rs `lookup_variable`'s
`self.locals.get(&expr)`). -/
def localsGet (locals : List (Expr × Nat)) (expr : Expr) : Option Nat :=
  match locals with
  | [] => none
  | (e, d) :: t => if exprEq e expr then some d else localsGet t expr

/-- resolver.rs `resolve_local`: scan scopes innermost→outermost; at the
first scope containing the name, emit `scopes.len() - 1 - i` — with the
innermost-first representation this is simply the scan position — into the
interpreter's side table.  No match emits nothing. -/
def resolve_localFrom (scopes : List (List (String × Bool))) (j : Nat)
    (s : RState) (expr : Expr) (name : Token) : RState :=
  match scopes with
  | [] => s
  | scope :: rest =>
      if (scopeGet scope name.lexeme).isSome then
        { s with locals := localsInsert s.locals expr j }
      else resolve_localFrom rest (j + 1) s expr name

/-- Entry point of `resolve_local`. -/
def resolve_local (s : RState) (expr : Expr) (name : Token) : RState :=
  resolve_localFrom s.scopes 0 s expr name

/-- The parameter declare+define loop shared by `visit_fun_stmt` and
`resolve_function`. -/
def declareParams (s : RState) : List Token → RState
  | [] => s
  | p :: rest => declareParams (define (declare s p.lexeme) p.lexeme) rest

/-- The missing `utils::error` diagnostic sink, modelled from the spec
(section 6): `"[line N] Error: <message>"`, and it marks the compile as
failed. -/
def rerror (s : RState) (line : Nat) (message : String) : RState :=
  { s with diags :=
      s.diags ++ ["[line " ++ toString line ++ "] Error: " ++ message] }

mutual

/-- resolver.rs `resolve_stmt`: resolve each statement in turn via
`resolve_stmt_single`. -/
def resolve_stmt (fuel : Nat) (s : RState) : List Stmt → RRes Unit
  | [] => .ok () s
  | stmt :: rest =>
      (match fuel with
       | 0 => .crash "out of fuel"
       | fuel' + 1 =>
          match resolve_stmt_single fuel' s stmt with
          | .ok () s1 => resolve_stmt fuel' s1 rest
          | .err _ _ => .crash "TODO: panic message"
          | .crash m => .crash m)

/-- resolver.rs `resolve_stmt_single`: `stmt.accept(self)` dispatched to the
`StmtVisitor` implementation, with the `.expect("TODO: panic message")`
panic on an `Err` result. -/
def resolve_stmt_single (fuel : Nat) (s : RState) (stmt : Stmt) : RRes Unit :=
  match fuel with
  | 0 => .crash "out of fuel"
  | fuel' + 1 =>
      match stmt with
      | .expression expression =>
          (match resolve_expr fuel' s expression with
           | .ok _ s1 => .ok () s1
           | .err e s1 => .err e s1
           | .crash m => .crash m)
      | .print expression =>
          (match resolve_expr fuel' s expression with
           | .ok _ s1 => .ok () s1
           | .err e s1 => .err e s1
           | .crash m => .crash m)
      | .var_ name initializer =>
          let s1 := declare s name.lexeme
          (match initializer with
           | some init =>
              (match resolve_expr fuel' s1 init with
               | .ok _ s2 => .ok () (define s2 name.lexeme)
               | .err e s2 => .err e s2
               | .crash m => .crash m)
           | none => .ok () (define s1 name.lexeme))
      | .block statements =>
          (match resolve_block_stmts fuel' (begin_scope s) statements with
           | .ok () s1 => .ok () (end_scope s1)
           | .err e s1 => .err e s1
           | .crash m => .crash m)
      | .if_ condition then_branch else_branch =>
          (match resolve_expr fuel' s condition with
           | .ok _ s1 =>
              (match resolve_stmt_single fuel' s1 then_branch with
               | .ok () s2 =>
                  (match else_branch with
                   | some els =>
                      (match resolve_stmt_single fuel' s2 els with
                       | .ok () s3 => .ok () s3
                       | .err _ _ => .crash "TODO: panic message"
                       | .crash m => .crash m)
                   | none => .ok () s2)
               | .err _ _ => .crash "TODO: panic message"
               | .crash m => .crash m)
           | .err e s1 => .err e s1
           | .crash m => .crash m)
      | .while_ condition body =>
          (match resolve_expr fuel' s condition with
           | .ok _ s1 =>
              (match resolve_stmt_single fuel' s1 body with
               | .ok () s2 => .ok () s2
               | .err _ _ => .crash "TODO: panic message"
               | .crash m => .crash m)
           | .err e s1 => .err e s1
           | .crash m => .crash m)
      | .function name params body =>
          let s1 := define (declare s name.lexeme) name.lexeme
          let s2 := declareParams (begin_scope s1) params
          (match resolve_stmt fuel' s2 body with
           | .ok () s3 => .ok () (end_scope s3)
           | .err e s3 => .err e s3
           | .crash m => .crash m)
      | .return_ keyword value =>
          (match value with
           | some v =>
              let s1 :=
                if s.current_function = FunctionType.initializer then
                  rerror s keyword.line
                    "Can\x27t return a value from an initializer."
                else s
              (match resolve_expr fuel' s1 v with
               | .ok _ s2 => .ok () s2
               | .err e s2 => .err e s2
               | .crash m => .crash m)
           | none => .ok () s)
      | .class_ name methods superclass =>
          resolve_class fuel' s name methods superclass

/-- The statement loop inside resolver.rs `visit_block_stmt` (each child
through `resolve_stmt_single`, panicking on `Err`). -/
def resolve_block_stmts (fuel : Nat) (s : RState) : List Stmt → RRes Unit
  | [] => .ok () s
  | stmt :: rest =>
      (match fuel with
       | 0 => .crash "out of fuel"
       | fuel' + 1 =>
          match resolve_stmt_single fuel' s stmt with
          | .ok () s1 => resolve_block_stmts fuel' s1 rest
          | .err _ _ => .crash "TODO: panic message"
          | .crash m => .crash m)

/-- resolver.rs `visit_class_stmt`: set `current_class = Class`,
declare+define the name, reject self-inheritance, resolve the superclass
(twice, the second time after setting `current_class = Subclass`), push the
`super` scope when a superclass exists, push the `this` scope, resolve each
well-parsed method (with `FunctionType::Initializer` for `init`), pop the
scopes and reset `current_class` to `None` (the source never restores the
saved enclosing value). -/
def resolve_class (fuel : Nat) (s : RState) (name : Token)
    (methods : List (Except ParseError Stmt)) (superclass : Option Expr) :
    RRes Unit :=
  match fuel with
  | 0 => .crash "out of fuel"
  | fuel' + 1 =>
      let s1 := { s with current_class := .class_ }
      let s2 := define (declare s1 name.lexeme) name.lexeme
      let checkRes : RRes Unit :=
        match superclass with
        | some superclass_expr =>
            (match superclass_expr with
             | .variable superclass_name _ =>
                if name.lexeme = superclass_name.lexeme then
                  .err (.new_ superclass_name
                    "A class cannot inherit from itself.") s2
                else
                  (match resolve_expr fuel' s2 superclass_expr with
                   | .ok _ s3 => .ok () s3
                   | .err e s3 => .err e s3
                   | .crash m => .crash m)
             | _ =>
                (match resolve_expr fuel' s2 superclass_expr with
                 | .ok _ s3 => .ok () s3
                 | .err e s3 => .err e s3
                 | .crash m => .crash m))
        | none => .ok () s2
      match checkRes with
      | .ok () s3 =>
          let subRes : RRes Unit :=
            match superclass with
            | some sc =>
                let s4 := { s3 with current_class := .subclass }
                (match resolve_expr fuel' s4 sc with
                 | .ok _ s5 => .ok () s5
                 | .err _ _ => .crash "TODO: panic message"
                 | .crash m => .crash m)
            | none => .ok () s3
          (match subRes with
           | .ok () s5 =>
              let s6 :=
                match superclass with
                | some _ =>
                    let s6a := begin_scope s5
                    (match s6a.scopes with
                     | innermost :: rest =>
                        { s6a with
                          scopes := scopeInsert innermost "super" true :: rest }
                     | [] => s6a)
                | none => s5
              let s7 :=
                let s7a := begin_scope s6
                (match s7a.scopes with
                 | innermost :: rest =>
                    { s7a with
                      scopes := scopeInsert innermost "this" true :: rest }
                 | [] => s7a)
              (match resolve_methods fuel' s7 methods with
               | .ok () s8 =>
                  let s9 := end_scope s8
                  let s10 :=
                    match superclass with
                    | some _ => end_scope s9
                    | none => s9
                  .ok () { s10 with current_class := .none_ }
               | .err e s8 => .err e s8
               | .crash m => .crash m)
           | .err e s5 => .err e s5
           | .crash m => .crash m)
      | .err e s3 => .err e s3
      | .crash m => .crash m

/-- The method loop of `visit_class_stmt`: each `Ok(Stmt::Function)` entry
is resolved through `resolve_function` with `Method` (or `Initializer` when
named `init`); other entries are skipped. -/
def resolve_methods (fuel : Nat) (s : RState) :
    List (Except ParseError Stmt) → RRes Unit
  | [] => .ok () s
  | m :: rest =>
      (match fuel with
       | 0 => .crash "out of fuel"
       | fuel' + 1 =>
          match m with
          | .ok (.function name params body) =>
              let declaration :=
                if name.lexeme = "init" then FunctionType.initializer
                else FunctionType.method
              (match resolve_function fuel' s name params body declaration with
               | .ok () s1 => resolve_methods fuel' s1 rest
               | .err e s1 => .err e s1
               | .crash m' => .crash m')
          | _ => resolve_methods fuel' s rest)

/-- resolver.rs `resolve_function`: open a scope, declare+define the
parameters, resolve the body, close the scope.  The `declaration` argument
(the `FunctionType`) is accepted **and never used** — in particular
`current_function` is never updated. -/
def resolve_function (fuel : Nat) (s : RState) (_name : Token)
    (params : List Token) (body : List Stmt)
    (_declaration : FunctionType) : RRes Unit :=
  match fuel with
  | 0 => .crash "out of fuel"
  | fuel' + 1 =>
      let s1 := declareParams (begin_scope s) params
      match resolve_stmt fuel' s1 body with
      | .ok () s2 => .ok () (end_scope s2)
      | .err e s2 => .err e s2
      | .crash m => .crash m

/-- resolver.rs `resolve_expr`: `expr.accept(self)` dispatched to the
`Visitor` implementation. -/
def resolve_expr (fuel : Nat) (s : RState) (expr : Expr) : RRes Value :=
  match fuel with
  | 0 => .crash "out of fuel"
  | fuel' + 1 =>
      match expr with
      | .literal _ => .ok .nil s
      | .grouping e => resolve_expr fuel' s e
      | .unary _ right => resolve_expr fuel' s right
      | .binary left _ right =>
          (match resolve_expr fuel' s left with
           | .ok _ s1 => resolve_expr fuel' s1 right
           | .err e s1 => .err e s1
           | .crash m => .crash m)
      | .logical left _ right =>
          (match resolve_expr fuel' s left with
           | .ok _ s1 => resolve_expr fuel' s1 right
           | .err e s1 => .err e s1
           | .crash m => .crash m)
      | .variable token initializer =>
          (match s.scopes with
           | [] => .crash "called Option unwrap on a None value"
           | innermost :: _ =>
              if (scopeGet innermost token.lexeme).getD true = false then
                .err (.new_ token
                  "Can\x27t read local variable in its own initializer.") s
              else
                let s1 :=
                  match initializer with
                  | some init => resolve_local s init token
                  | none => s
                (match initializer with
                 | some init_expr => resolve_expr fuel' s1 init_expr
                 | none => .ok .nil s1))
      | .assign token value =>
          (match resolve_expr fuel' s value with
           | .ok _ s1 => .ok .nil (resolve_local s1 value token)
           | .err e s1 => .err e s1
           | .crash m => .crash m)
      | .call callee _ arguments =>
          (match resolve_expr fuel' s callee with
           | .ok _ s1 => resolve_expr_list fuel' s1 arguments
           | .err e s1 => .err e s1
           | .crash m => .crash m)
      | .get object _ => resolve_expr fuel' s object
      | .set object _ value =>
          (match resolve_expr fuel' s value with
           | .ok _ s1 => resolve_expr fuel' s1 object
           | .err _ _ => .crash "TODO: panic message"
           | .crash m => .crash m)
      | .this keyword =>
          let s1 :=
            if s.current_class = ClassType.none_ then
              rerror s keyword.line "Can\x27t use \x27this\x27 outside of a class."
            else s
          .ok .nil (resolve_local s1 (.this keyword) keyword)
      | .super keyword _method =>
          let dummy_expr := Expr.literal .nil
          let s1 :=
            if s.current_class = ClassType.none_ then
              rerror s keyword.line
                "Can\x27t use \x27super\x27 outside of a class."
            else if s.current_class ≠ ClassType.subclass then
              rerror s keyword.line
                "Can\x27t use \x27super\x27 in a class with no superclass."
            else s
          .ok .nil (resolve_local s1 dummy_expr keyword)

/-- The argument loop of resolver.rs `visit_call_expr`. -/
def resolve_expr_list (fuel : Nat) (s : RState) : List Expr → RRes Value
  | [] => .ok .nil s
  | e :: rest =>
      (match fuel with
       | 0 => .crash "out of fuel"
       | fuel' + 1 =>
          match resolve_expr fuel' s e with
          | .ok _ s1 => resolve_expr_list fuel' s1 rest
          | .err e' s1 => .err e' s1
          | .crash m => .crash m)

end

end Resolver

/-- interpreter.rs `struct Interpreter`: the globals (with the native
`clock`), the current environment and the resolver side table. -/
structure Interpreter where
  globals : Environment
  env : Environment
  locals : List (Expr × Nat)

/-- interpreter.rs `Interpreter::new`: define `clock` in the globals and
start with (a clone of) the globals as the current environment. -/
def Interpreter.new : Interpreter :=
  let globals := Environment.new_global.define "clock" (.callable .clockFn)
  { globals := globals, env := globals, locals := [] }

/-- interpreter.rs `lookup_variable`: a side-table hit uses
`env.get_at(distance, name)`, a miss falls back to `globals.get(name)`. -/
def Interpreter.lookup_variable (interp : Interpreter) (name : Token)
    (expr : Expr) : RtOut Value :=
  match Resolver.localsGet interp.locals expr with
  | some distance => interp.env.get_at distance name.lexeme
  | none => interp.globals.get name

/-- Outcome of runner.rs `run`: the printed output and the two error flags
(`HAD_ERROR`, set by every diagnostic reported through the sink, and
`HAD_RUNTIMES`, set by `runtime_error`), or a process panic. -/
inductive RunOut where
  | done (output : List String) (had_error : Bool) (had_runtime : Bool)
  | crash (msg : String)

/-- The statement loop of interpreter.rs `interpret`: execute each statement
through the evaluator, and on a runtime error call `runtime_error(err)`
(sets `HAD_RUNTIMES`) and break. -/
def interpretLoop (fuel : Nat) (st : EvalState) :
    List Stmt → (EvalState × Bool × Option String)
  | [] => (st, false, none)
  | stmt :: rest =>
      (match fuel with
       | 0 => (st, false, some "out of fuel")
       | fuel' + 1 =>
          match execStmt fuel' st stmt with
          | .ok () st' => interpretLoop fuel' st' rest
          | .err _ st' => (st', true, none)
          | .crash m => (st, false, some m))

/-- interpreter.rs `interpret`: run the resolver over the statements (filling
the side table and reporting resolve diagnostics), then execute them.  The
statement execution itself is the missing evaluator module, modelled above
(`execStmt`). -/
def Interpreter.interpret (fuel : Nat) (interp : Interpreter)
    (statements : List Stmt) :
    (List String × List String × Bool × Option String) :=
  match Resolver.resolve_stmt fuel Resolver.new statements with
  | .crash m => ([], [], false, some m)
  | .err _ _ => ([], [], false, some "TODO: panic message")
  | .ok () rs =>
      let (st', had_runtime, crashed) :=
        interpretLoop fuel { env := interp.env, output := [] } statements
      (rs.diags, st'.output, had_runtime, crashed)

/-- runner.rs `run`: scan (elided — the runner is fed scanner output, a
token list ending in `Eof`), parse, then **unconditionally** hand the parsed
statements to `Interpreter::interpret`; no error flag is consulted before
evaluation. -/
def run (fuel : Nat) (tokens : List Token) : RunOut :=
  match Parser.parse fuel [] (PState.mk tokens 0 []) with
  | .crash m => .crash m
  | .err _ => .crash "parse returned Err"
  | .ok statements ps =>
      match Interpreter.new.interpret fuel statements with
      | (_, _, _, some m) => .crash m
      | (resolveDiags, output, had_runtime, none) =>
          .done output (!(ps.diags ++ resolveDiags).isEmpty) had_runtime

/-- The exit decision of runner.rs `run_file`: run, then exit 65 when
`HAD_ERROR` is set, else exit 70 when `HAD_RUNTIMES` is set. -/
inductive FileOut where
  | exits (output : List String) (code : Option Nat)
  | crash (msg : String)

/-- runner.rs `run_file` on already-scanned input: `run`, then the exit-code
checks, in that order — the checks happen only *after* `run` has fully
executed (and printed). -/
def run_file (fuel : Nat) (tokens : List Token) : FileOut :=
  match run fuel tokens with
  | .crash m => .crash m
  | .done output had_error had_runtime =>
      if had_error then .exits output (some 65)
      else if had_runtime then .exits output (some 70)
      else .exits output none

/-! ### Concrete inputs and observers used by the theorems -/

/-- An identifier token on line 1. -/
def tokI (lex : String) : Token := Token.mk .identifier lex .nil 1

/-- A number token on line 1. -/
def tokN (n : Int) : Token := Token.mk .number (toString n) (.number n) 1

/-- A token of the given kind on line 1. -/
def tokT (tt : TokenType) (lex : String) : Token := Token.mk tt lex .nil 1

/-- The `Eof` token produced by the scanner. -/
def eofTok : Token := Token.mk .eof "" .nil 1

/-- Observer: is the parse outcome an `Err(ParseError)`? -/
def presIsErr {α : Type} : PRes α → Bool
  | .err _ => true
  | _ => false

/-- Observer: the diagnostics reported by a parse. -/
def presDiags {α : Type} : PRes α → List String
  | .ok _ s => s.diags
  | .err s => s.diags
  | .crash _ => []

/-- Observer: the diagnostics reported by a resolver run. -/
def rresDiags {α : Type} : RRes α → Option (List String)
  | .ok _ s => some s.diags
  | .err _ s => some s.diags
  | .crash _ => none

/-- Observer: the side table produced by a resolver run. -/
def rresLocals {α : Type} : RRes α → Option (List (Expr × Nat))
  | .ok _ s => some s.locals
  | .err _ s => some s.locals
  | .crash _ => none

/-- Observer: the output accumulated by an evaluation. -/
def eoutOutput : EOut Value → Option (List String)
  | .ok _ st => some st.output
  | .err _ st => some st.output
  | .crash _ => none

/-- An empty starting evaluation state. -/
def st0 : EvalState := { env := Environment.new_global, output := [] }

/-- The `init` declaration of the class `Foo \x7b init() \x7b this.x = 1; \x7d \x7d`
(spec end-to-end scenario 4, shortened to the first write). -/
def initDecl : Stmt :=
  Stmt.function (tokI "init") []
    [Stmt.expression (Expr.set (Expr.this (Token.mk .this_ "this" .nil 1))
      (tokI "x") (.literal (.number 1)))]

/-- The class `Foo` with the initializer above. -/
def fooClass : LoxClass :=
  .mk none "Foo" [("init", .mk initDecl Environment.new_global)]

/-- The body of the spec's counter closure:
`i = i + 1; print i;` (spec end-to-end scenario 2). -/
def countDecl : Stmt :=
  Stmt.function (tokI "count") []
    [Stmt.expression (Expr.assign (tokI "i")
       (Expr.binary (Expr.variable (tokI "i") none) (tokT .plus "+")
         (.literal (.number 1)))),
     Stmt.print (Expr.variable (tokI "i") none)]

/-- The counter closure as returned by `makeCounter()`: the `count` function
together with the captured environment frame holding `i = 0`. -/
def counterFn : LoxFunction :=
  .mk countDecl (Environment.mk [("i", .number 0)] (some Environment.new_global))

/-- The caller's repeated `c(); c(); ...`: invoke the same stored closure
`n` times in sequence, threading the interpreter state.  The closure value
itself cannot change between calls: `LoxFunction::call` takes `&self` and the
captured `Rc<Environment>` has no interior mutability. -/
def callRepeat (fuel : Nat) (f : LoxFunction) : Nat → EvalState → EOut Value
  | 0, st => .ok .nil st
  | k + 1, st =>
      match f.call fuel [] st with
      | .ok _ st' => callRepeat fuel f k st'
      | other => other

/-- Token stream of `x = 1;`. -/
def toksC4 : List Token :=
  [tokI "x", tokT .equal "=", tokN 1, tokT .semiColon ";", eofTok]

/-- Token stream of `1 = 2;` (an invalid assignment target). -/
def toksC4bad : List Token :=
  [tokN 1, tokT .equal "=", tokN 2, tokT .semiColon ";", eofTok]

/-- Token stream of `\x7b print 1; \x7d`. -/
def toksC5a : List Token :=
  [tokT .leftBrace "\x7b", tokT .print "print", tokN 1, tokT .semiColon ";",
   tokT .rightBrace "\x7d", eofTok]

/-- Token stream of `\x7b\x7d`. -/
def toksC5b : List Token :=
  [tokT .leftBrace "\x7b", tokT .rightBrace "\x7d", eofTok]

/-- Top-level `return 1;`. -/
def progC6a : List Stmt :=
  [Stmt.return_ (tokT .return_ "return") (some (.literal (.number 1)))]

/-- `class Foo \x7b init() \x7b return 1; \x7d \x7d` — a value-returning
initializer. -/
def progC6b : List Stmt :=
  [Stmt.class_ (tokI "Foo")
    [Except.ok (Stmt.function (tokI "init") []
      [Stmt.return_ (tokT .return_ "return") (some (.literal (.number 1)))])]
    none]

/-- Token stream of `print 1; )` — a valid print statement followed by a
syntax error. -/
def toksC7 : List Token :=
  [tokT .print "print", tokN 1, tokT .semiColon ";", tokT .rightParen ")",
   eofTok]

/-- A comma token. -/
def commaTok : Token := Token.mk .comma "," .nil 1

/-- Interleave a separator between successive tokens. -/
def interleave : List Token → Token → List Token
  | [], _ => []
  | [t], _ => [t]
  | t :: rest, sep => t :: sep :: interleave rest sep

/-- 255 parameter names separated by commas. -/
def params255 : List Token :=
  interleave ((List.range 255).map (fun i => tokI ("p" ++ toString i)))
    commaTok

/-- Token stream of `f(p0, p1, ..., p254) \x7b\x7d` as seen by
`Parser::function` (the `fun` keyword is consumed by the caller). -/
def toksC8fun : List Token :=
  [tokI "f", tokT .leftParen "("] ++ params255 ++
    [tokT .rightParen ")", tokT .leftBrace "\x7b", tokT .rightBrace "\x7d",
     eofTok]

/-- 255 number arguments separated by commas. -/
def args255 : List Token :=
  interleave ((List.range 255).map (fun i => tokN i)) commaTok

/-- Token stream of the argument part `0, 1, ..., 254)` as seen by
`finish_call` (the `(` is consumed by `call`). -/
def toksC8args : List Token :=
  args255 ++ [tokT .rightParen ")", eofTok]

/-- `var a = a;` at global scope. -/
def progC9 : List Stmt :=
  [Stmt.var_ (tokI "a") (some (.variable (tokI "a") none))]

/-- Method `m() \x7b super.p; \x7d` of the derived class. -/
def methodM : Stmt :=
  Stmt.function (tokI "m") []
    [Stmt.expression (Expr.super (tokT .super_ "super") (tokI "p"))]

/-- Method `n() \x7b \x7b super.q; \x7d \x7d` — the `super` use sits one
block deeper than in `m`, so its emitted depth differs. -/
def methodN : Stmt :=
  Stmt.function (tokI "n") []
    [Stmt.block
      [Stmt.expression (Expr.super (tokT .super_ "super") (tokI "q"))]]

/-- `\x7b class A \x7b\x7d class B < A \x7b m..\x7d \x7d` with only method
`m` (one `super` occurrence, emitted depth 2). -/
def progC3one : List Stmt :=
  [Stmt.block
    [Stmt.class_ (tokI "A") [] none,
     Stmt.class_ (tokI "B") [Except.ok methodM]
       (some (.variable (tokI "A") none))]]

/-- The same program with both methods `m` and `n`: two distinct `super`
occurrences whose emitted depths are 2 and 3. -/
def progC3 : List Stmt :=
  [Stmt.block
    [Stmt.class_ (tokI "A") [] none,
     Stmt.class_ (tokI "B") [Except.ok methodM, Except.ok methodN]
       (some (.variable (tokI "A") none))]]

/-- A two-frame environment chain: `a` bound in the inner frame, the outer
frame empty. -/
def envW : Environment :=
  Environment.mk [("a", .number 1)] (some (Environment.mk [] none))

/-- A token naming the (unbound) variable `z`. -/
def zTok : Token := tokI "z"

/-! ### Supporting lemmas -/

/-- Inserting a binding makes it the one `lookupAssoc` finds. -/
theorem lookupAssoc_insertAssoc (l : List (String × Value)) (k : String)
    (v : Value) : lookupAssoc (insertAssoc l k v) k = some v := by
  induction l with
  | nil => simp [insertAssoc, lookupAssoc]
  | cons h t ih =>
      obtain ⟨k', v'⟩ := h
      by_cases hk : k' = k <;> simp [insertAssoc, lookupAssoc, hk, ih]

/-- When the chain is longer than `d`, `assign_at d` succeeds and the updated
chain answers the new value to `get_at d` — whether or not the name was bound
before. -/
theorem assign_at_then_get_at :
    ∀ (env : Environment) (d : Nat) (name : Token) (v : Value),
    d < env.chainLength →
    ∃ env', env.assign_at d name v = .ok env' ∧
      env'.get_at d name.lexeme = .ok v
  | .mk values enclosing, 0, name, v, _ => by
      refine ⟨.mk (insertAssoc values name.lexeme v) enclosing, rfl, ?_⟩
      simp [Environment.get_at, Environment.ancestor, Environment.values,
        lookupAssoc_insertAssoc]
  | .mk values (some parent), d + 1, name, v, h => by
      have hp : d < parent.chainLength := by
        simp [Environment.chainLength] at h
        omega
      obtain ⟨p', hassign, hget⟩ := assign_at_then_get_at parent d name v hp
      refine ⟨.mk values (some p'), ?_, ?_⟩
      · simp [Environment.assign_at, Environment.enclosing, Environment.values,
          hassign]
      · exact hget
  | .mk values none, d + 1, name, v, h => by
      simp [Environment.chainLength] at h

/-- When no frame of the chain binds the name, `assign` reports
`Undefined variable`. -/
theorem assign_unbound :
    ∀ (env : Environment) (name : Token) (v : Value),
    env.bindsName name.lexeme = false →
    env.assign name v =
      .err (.new_ name ("Undefined variable \x27" ++ name.lexeme ++ "\x27."))
  | .mk values none, name, v, h => by
      simp [Environment.bindsName] at h
      simp [Environment.assign, h]
  | .mk values (some parent), name, v, h => by
      simp [Environment.bindsName, Bool.or_eq_false_iff] at h
      obtain ⟨h1, h2⟩ := h
      have hrec := assign_unbound parent name v h2
      simp [Environment.assign, h1, hrec]

/-! ### The claims -/

/-- C1.  The claim says `C(args)` returns the very instance the bound `init`
mutated.  In class.rs `LoxClass::call`, `init` is bound to
`instance.clone()` — a by-value copy — and the *original* `instance` is
returned untouched: calling `Foo` (whose `init` performs `this.x = 1;`)
yields an instance with **no** fields, while the instance the bound
initializer worked on does carry `x = 1`; the two are different values, not
one shared instance. -/
theorem c1_init_mutates_a_copy_not_the_returned_instance :
    LoxClass.call 100 fooClass [] st0 =
      .ok (.loxInstance (.mk fooClass [])) st0 ∧
    boundInitThisAfter 100 fooClass [] =
      .ok (.loxInstance (.mk fooClass [("x", .number 1)])) :=
  ⟨rfl, rfl⟩

/-- C2.  The claim says closures share their defining frame, so the spec's
counter prints 1, 2, 3.  In function.rs `LoxFunction::call`, each invocation
clones the captured environment (`(*self.closure).clone()`), the environment
chain is owned by value (environment.rs `Option<Box<Environment>>`), and the
`Rc<Environment>` closure has no interior mutability — so the increment of
`i` is lost when the call returns, and three calls to the same stored
counter closure print `1`, `1`, `1`. -/
theorem c2_closure_calls_mutate_a_snapshot :
    eoutOutput (callRepeat 100 counterFn 3 st0) = some ["1", "1", "1"] :=
  rfl

/-- C3.  The claim says the side table is keyed by a unique-per-node
identity, so entries of distinct occurrences never overwrite.  The table is
`HashMap<Expr, usize>` keyed by the structural expression value
(interpreter.rs), and resolver.rs `visit_super_expr` keys *every* `super`
expression by one shared dummy `Expr::Literal(Nil)`: resolving a class whose
method `m` uses `super` at depth 2 emits `(Literal Nil → 2)`, and adding a
second method `n` with `super` at depth 3 *overwrites* it, leaving a single
entry `(Literal Nil → 3)` — so the evaluator would look up depth 3 for the
occurrence that was emitted at depth 2. -/
theorem c3_super_side_table_entries_overwrite :
    rresLocals (Resolver.resolve_stmt 100 Resolver.new progC3one) =
      some [(.literal .nil, 2)] ∧
    rresLocals (Resolver.resolve_stmt 100 Resolver.new progC3) =
      some [(.literal .nil, 3)] :=
  ⟨rfl, rfl⟩

/-- C4.  The claim says expression parsing begins at the assignment rule,
producing `Assign`/`Set` nodes and reporting a non-fatal error (returning
the parsed left side) for other targets.  In parser.rs, `expression()`
delegates to `or_expr()`, so the `assignment` routine is unreachable:
parsing `x = 1;` panics inside `primary` (the `Identifier` arm reads
`previous()` at position 0) and never builds an `Assign`; and even invoking
`assignment` directly on the invalid target `1 = 2;` silently *consumes* the
`=` (the broken `match_tokens`) and returns the left side with **no**
diagnostic and no `Assign`/`Set` node. -/
theorem c4_expression_skips_assignment_rule :
    Parser.parse 100 [] (PState.mk toksC4 0 []) =
      .crash "Index error: tried to access previous token at position 0." ∧
    Parser.assignment 100 (PState.mk toksC4bad 0 []) =
      .ok (.literal (.number 1)) (PState.mk toksC4bad 2 []) :=
  ⟨rfl, rfl⟩

/-- C5.  The claim (and the grammar) says `block()` gathers declarations
while the next token is *not* `\x7d`.  The source inverts the guard
(`while check(RightBrace) && !is_at_end`): parsing `\x7b print 1; \x7d`
skips the loop and panics in
`consume(RightBrace).expect(..)`, and parsing `\x7b\x7d` enters the loop,
fails to parse `\x7d` as a declaration and panics in `unwrap()` — neither
yields a `Block` statement. -/
theorem c5_block_gathers_only_while_right_brace :
    Parser.parse 100 [] (PState.mk toksC5a 0 []) =
      .crash "Expect \x27\x7d\x27 after block." ∧
    Parser.parse 100 [] (PState.mk toksC5b 0 []) =
      .crash "called Result unwrap on an Err value: ParseError" :=
  ⟨rfl, rfl⟩

/-- C6.  The claim says the resolver rejects top-level `return` and
value-returning `init`.  resolver.rs `visit_return_stmt` has **no**
top-level check at all, and its initializer check compares
`current_function` — which is initialized to `None` and never assigned
anywhere (`resolve_function` ignores its `FunctionType` argument) — so
resolving `return 1;` at top level leaves the resolver state untouched (no
diagnostic), and resolving a class whose `init` contains `return 1;` also
reports nothing. -/
theorem c6_return_diagnostics_never_fire :
    Resolver.resolve_stmt 100 Resolver.new progC6a = .ok () Resolver.new ∧
    rresDiags (Resolver.resolve_stmt 100 Resolver.new progC6b) = some [] :=
  ⟨rfl, rfl⟩

/-- C7.  The claim says a file with compile errors exits 65 *before* any
statement is evaluated.  runner.rs `run` parses and then unconditionally
calls `Interpreter::interpret` — the `HAD_ERROR` check sits in `run_file`
*after* `run` returns — so the file `print 1; )` (a parse error) still
prints `1` and only then exits with 65. -/
theorem c7_evaluation_happens_before_exit_65 :
    run_file 200 toksC7 = .exits ["1"] (some 65) :=
  rfl

/-- C8.  The claim says exactly 255 parameters/arguments parse cleanly and
the 256th is reported without aborting.  In the source, `match_tokens`
consumes a comma but still answers `false`, so both loops exit after the
*first* item and `consume(RightParen)` fails on the second: a 255-parameter
declaration makes `Parser::function` return `Err` (which `declaration`
turns into a panic), and a 255-argument call makes `finish_call` return
`Err` — and on the parameter path the 255-limit would be a hard
`return Err(..)` besides. -/
theorem c8_params_and_args_error_at_second_item :
    presIsErr (Parser.function 600 (PState.mk toksC8fun 0 [])) = true ∧
    presDiags (Parser.function 600 (PState.mk toksC8fun 0 [])) =
      ["[line 1] Error at \x27p1\x27: Expect \x27)\x27 after parameters."] ∧
    presIsErr (Parser.finish_call 600 (.variable (tokI "f") none)
      (PState.mk toksC8args 0 [])) = true ∧
    presDiags (Parser.finish_call 600 (.variable (tokI "f") none)
      (PState.mk toksC8args 0 [])) =
      ["[line 1] Error at \x271\x27: Expect \x27)\x27 after arguments."] :=
  ⟨rfl, rfl, rfl, rfl⟩

/-- C9.  The claim says resolving `var a = a;` at global scope completes
without failure or panic (the initializer error is local-only).  resolver.rs
`visit_variable_expr` begins with `self.scopes.last().unwrap()`, which
panics when the scope stack is empty — exactly the global-scope case. -/
theorem c9_global_var_in_own_initializer_panics :
    Resolver.resolve_stmt 100 Resolver.new progC9 =
      .crash "called Option unwrap on a None value" :=
  rfl

/-- C10.  On a chain longer than `d`, `assign_at(d, name, v)` returns `Ok`
and a subsequent `get_at(d, name)` answers `v` — even when `name` was not
previously bound at depth `d` (the insert silently creates the binding) —
whereas `assign` on a name bound in no frame reports
`Undefined variable \x27name\x27.`. -/
theorem c10_assign_at_succeeds_assign_reports
    (env : Environment) (d : Nat) (name : Token) (v : Value)
    (hd : d < env.chainLength)
    (hn : env.bindsName name.lexeme = false) :
    (∃ env', env.assign_at d name v = .ok env' ∧
      env'.get_at d name.lexeme = .ok v) ∧
    env.assign name v =
      .err (.new_ name ("Undefined variable \x27" ++ name.lexeme ++ "\x27.")) :=
  ⟨assign_at_then_get_at env d name v hd, assign_unbound env name v hn⟩

/-- Witness for C10 at a concrete two-frame chain, depth 1 and the unbound
name `z`. -/
theorem c10_assign_at_succeeds_assign_reports_witness :
    (1 < envW.chainLength ∧ envW.bindsName zTok.lexeme = false) ∧
    ((∃ env', envW.assign_at 1 zTok (.number 5) = .ok env' ∧
        env'.get_at 1 zTok.lexeme = .ok (.number 5)) ∧
      envW.assign zTok (.number 5) =
        .err (.new_ zTok
          ("Undefined variable \x27" ++ zTok.lexeme ++ "\x27."))) :=
  ⟨⟨by decide, by decide⟩,
    c10_assign_at_succeeds_assign_reports envW 1 zTok (.number 5)
      (by decide) (by decide)⟩

end Lox
